import Mathlib

/-!
# Verification of the GlowJack receiver core (`src/receiver.js`)

Shallow embedding of the receiver's router and render-loop state logic.
JavaScript numbers are modelled as exact rationals (`ℚ`); JavaScript
values that flow through the message router are modelled by the inductive
type `JSVal` below, with JavaScript truthiness made explicit.  Stateful
code (the `features` record, `activeVizIndex`, `lastFeatureTime`, the
tunnel-ring list, particle positions) is modelled by explicit state
passing; calls to `Math.random()` and `performance.now()` become explicit
parameters, and `JSON.parse` becomes a `String → Option JSVal` parameter
(`none` models a parse exception).
-/

namespace GlowJack

/-- A JavaScript value as it can appear in an inbound Cast message or in a
field of the `features` record: `undefined`, `null`, booleans, numbers
(modelled as exact rationals), strings, numeric arrays (covering
`Float32Array` and JSON arrays of numbers), and plain objects
(association lists of fields). -/
inductive JSVal where
  | undefined : JSVal
  | null : JSVal
  | bool : Bool → JSVal
  | num : ℚ → JSVal
  | str : String → JSVal
  | arr : List ℚ → JSVal
  | obj : List (String × JSVal) → JSVal

/-- JavaScript strict equality `v === "lit"` against a string literal, as
used by the `switch (data.type)` dispatch: true exactly when `v` is a
string with the same characters (`===` never coerces). -/
def strictEqStr : JSVal → String → Bool
  | .str s, lit => s == lit
  | _, _ => false

/-- JavaScript truthiness: `undefined`, `null`, `false`, `0` and `""` are
falsy; every other value of the modelled shapes (including every array and
object) is truthy.  (`NaN` does not arise in the exact-rational model.) -/
def truthy : JSVal → Bool
  | .undefined => false
  | .null => false
  | .bool b => b
  | .num q => decide (q ≠ 0)
  | .str s => decide (s ≠ "")
  | .arr _ => true
  | .obj _ => true

/-- Field lookup in an object's field list (first match; the messages the
protocol sends carry no duplicate keys).  A missing field is `undefined`. -/
def lookupField : List (String × JSVal) → String → JSVal
  | [], _ => .undefined
  | (k, v) :: rest, key => if k = key then v else lookupField rest key

/-- JavaScript property access `v.key`.  Reading a property of `undefined`
or `null` throws a `TypeError`, modelled as `none`; on any other value the
access succeeds (`some _`), yielding the field for objects and `undefined`
for primitives and arrays (none of the keys the receiver reads is a
built-in property of those). -/
def getProp : JSVal → String → Option JSVal
  | .undefined, _ => none
  | .null, _ => none
  | .obj fields, key => some (lookupField fields key)
  | _, _ => some .undefined

/-- Property access for receivers already known not to be `undefined`/`null`
(inside `updateFeatures`, which is guarded by `if (!f) return`): the
throwing cases cannot occur, so the `Option` is discharged. -/
def prop (v : JSVal) (key : String) : JSVal :=
  (getProp v key).getD .undefined

/-- JavaScript `a || b`: `a` when truthy, else `b`. -/
def jsOr (a b : JSVal) : JSVal :=
  if truthy a then a else b

/-- Models `new Float32Array(x)` as a list of rationals: an array argument
is copied; a (nonnegative integral) number argument allocates that many
zero samples.  Other argument shapes (which throw or coerce in JS) are not
exercised by any message the protocol defines and map to the empty list. -/
def toFloat32Array : JSVal → List ℚ
  | .arr l => l
  | .num q => List.replicate (max 0 ⌊q⌋).toNat 0
  | _ => []

/-- The `features` record exactly as the receiver holds it: scalar fields
are raw JavaScript values (the router stores whatever truthy value
arrives), the two sequence fields are `Float32Array`s. -/
structure RawFeatures where
  energyLow : JSVal
  energyMid : JSVal
  energyHigh : JSVal
  beatPulse : JSVal
  isBeat : JSVal
  beatCount : JSVal
  beatPhase : JSVal
  tempoBpm : JSVal
  brightness : JSVal
  roughness : JSVal
  sectionEnergy : JSVal
  amplitude : JSVal
  waveform : List ℚ
  fftMagnitudes : List ℚ

/-- The initial `features` object (receiver.js lines 29–37). -/
def initialFeatures : RawFeatures where
  energyLow := .num 0
  energyMid := .num 0
  energyHigh := .num 0
  beatPulse := .num 0
  isBeat := .bool false
  beatCount := .num 0
  beatPhase := .num 0
  tempoBpm := .num 120
  brightness := .num 0.5
  roughness := .num 0
  sectionEnergy := .num 0
  amplitude := .num 0
  waveform := List.replicate 128 0
  fftMagnitudes := List.replicate 64 0

/-- `updateFeatures(f)` (receiver.js lines 102–118): an early return when
`f` is falsy; otherwise every scalar field becomes `f.field || default`
and each sequence field is replaced by `new Float32Array(f.field)` when
`f.field` is truthy and kept otherwise. -/
def updateFeatures (f : JSVal) (cur : RawFeatures) : RawFeatures :=
  if truthy f then
    { energyLow := jsOr (prop f "energyLow") (.num 0)
      energyMid := jsOr (prop f "energyMid") (.num 0)
      energyHigh := jsOr (prop f "energyHigh") (.num 0)
      beatPulse := jsOr (prop f "beatPulse") (.num 0)
      isBeat := jsOr (prop f "isBeat") (.bool false)
      beatCount := jsOr (prop f "beatCount") (.num 0)
      beatPhase := jsOr (prop f "beatPhase") (.num 0)
      tempoBpm := jsOr (prop f "tempoBpm") (.num 120)
      brightness := jsOr (prop f "brightness") (.num 0.5)
      roughness := jsOr (prop f "roughness") (.num 0)
      sectionEnergy := jsOr (prop f "sectionEnergy") (.num 0)
      amplitude := jsOr (prop f "amplitude") (.num 0)
      waveform :=
        if truthy (prop f "waveform") then toFloat32Array (prop f "waveform")
        else cur.waveform
      fftMagnitudes :=
        if truthy (prop f "fftMagnitudes") then toFloat32Array (prop f "fftMagnitudes")
        else cur.fftMagnitudes }
  else cur

/-- The router-visible mutable state: the `features` record, the active
visualizer index (a raw JavaScript value, since `handleMessage` stores
`data.index || 0` unchecked), and the staleness timestamp. -/
structure RState where
  features : RawFeatures
  activeVizIndex : JSVal
  lastFeatureTime : ℚ

/-- The receiver's state at startup (receiver.js lines 28, 39). -/
def initialRState : RState where
  features := initialFeatures
  activeVizIndex := .num 0
  lastFeatureTime := 0

/-- The only outbound message the core emits. -/
inductive OutMsg where
  | pong : OutMsg

/-- The body of `handleMessage` after the string-parsing preamble
(receiver.js lines 85–99): `switch (data.type)`.  Reading `.type` off
`null`/`undefined` throws (`Except.error`); otherwise the three known
message kinds act and anything else falls through the `switch` silently.
`now` is the value `performance.now()` returns during this call. -/
def handleParsed (now : ℚ) (data : JSVal) (s : RState) :
    Except Unit (RState × List OutMsg) :=
  match getProp data "type" with
  | none => .error ()
  | some t =>
    if strictEqStr t "features" then
      .ok ({ s with
              features := updateFeatures (prop data "data") s.features
              lastFeatureTime := now }, [])
    else if strictEqStr t "vizIndex" then
      .ok ({ s with activeVizIndex := jsOr (prop data "index") (.num 0) }, [])
    else if strictEqStr t "ping" then
      .ok (s, [.pong])
    else
      .ok (s, [])

/-- `handleMessage(data)` (receiver.js lines 80–100).  A string payload is
first run through `JSON.parse` (the platform parser, passed in as
`parse`; `none` models a parse exception, which the `try`/`catch` turns
into a silent return). -/
def handleMessage (parse : String → Option JSVal) (now : ℚ) (data : JSVal)
    (s : RState) : Except Unit (RState × List OutMsg) :=
  match data with
  | .str text =>
    match parse text with
    | none => .ok (s, [])
    | some parsed => handleParsed now parsed s
  | _ => handleParsed now data s

/-! ## Render-loop model

The render loop and the visualizers read the `features` record through
destructuring (`const { energyLow, ... } = features`) and do arithmetic on
the fields.  All render-loop claims are therefore stated over the numeric
view of the state — fields carrying numbers (exact rationals) in their
nominal shapes, `isBeat` a boolean — which is what the initial state holds
and what well-formed updates produce. -/

/-- The numeric (well-typed) view of the `features` record, over which the
render loop's arithmetic is modelled. -/
structure FeatureState where
  energyLow : ℚ
  energyMid : ℚ
  energyHigh : ℚ
  beatPulse : ℚ
  isBeat : Bool
  beatCount : ℚ
  beatPhase : ℚ
  tempoBpm : ℚ
  brightness : ℚ
  roughness : ℚ
  sectionEnergy : ℚ
  amplitude : ℚ
  waveform : List ℚ
  fftMagnitudes : List ℚ

/-- The numeric view of the startup feature state. -/
def zeroFeatureState : FeatureState where
  energyLow := 0
  energyMid := 0
  energyHigh := 0
  beatPulse := 0
  isBeat := false
  beatCount := 0
  beatPhase := 0
  tempoBpm := 120
  brightness := 0.5
  roughness := 0
  sectionEnergy := 0
  amplitude := 0
  waveform := List.replicate 128 0
  fftMagnitudes := List.replicate 64 0

/-- The staleness-decay step of `render` (receiver.js lines 352–361):
when `performance.now() - lastFeatureTime > 200`, beatPulse is multiplied
by 0.9, amplitude and the three energy bands by 0.95, and isBeat is forced
false; otherwise the state is untouched. -/
def renderDecay (nowMs lastFeatureTime : ℚ) (fs : FeatureState) : FeatureState :=
  if nowMs - lastFeatureTime > 200 then
    { fs with
        beatPulse := fs.beatPulse * 0.9
        amplitude := fs.amplitude * 0.95
        energyLow := fs.energyLow * 0.95
        energyMid := fs.energyMid * 0.95
        energyHigh := fs.energyHigh * 0.95
        isBeat := false }
  else fs

/-- Which draw function `render`'s `switch (activeVizIndex)` dispatches to
(receiver.js lines 364–370). -/
inductive VizTag where
  | nebula : VizTag
  | bassTunnel : VizTag
  | ribbonFlow : VizTag
  | pulseGrid : VizTag

/-- JavaScript strict equality `v === q` against a numeric literal, as the
`switch` cases use: true exactly when `v` is a number equal to `q`. -/
def strictEqNum : JSVal → ℚ → Bool
  | .num q, lit => decide (q = lit)
  | _, _ => false

/-- The `switch (activeVizIndex)` dispatch of `render` (receiver.js lines
364–370): cases 0–3 select the four visualizers, everything else falls to
the `default:` branch, which calls `drawNebula` — variant 0. -/
def dispatchViz (activeVizIndex : JSVal) : VizTag :=
  if strictEqNum activeVizIndex 0 then .nebula
  else if strictEqNum activeVizIndex 1 then .bassTunnel
  else if strictEqNum activeVizIndex 2 then .ribbonFlow
  else if strictEqNum activeVizIndex 3 then .pulseGrid
  else .nebula

/-! ## Bass Tunnel (variant 1) ring state -/

/-- A tunnel ring (receiver.js lines 223–230). -/
structure Ring where
  radius : ℚ
  thickness : ℚ
  alpha : ℚ
  hue : ℚ
  waveOff : ℚ
  waveAmp : ℚ

/-- `MAX_RINGS` (receiver.js line 212). -/
def MAX_RINGS : ℕ := 30

/-- `maxR = Math.min(width, height) * 0.45` (receiver.js line 217). -/
def tunnelMaxR (width height : ℚ) : ℚ := min width height * 0.45

/-- `spawnRate = 0.3 + energyLow * 4` (receiver.js line 220). -/
def spawnRate (fs : FeatureState) : ℚ := 0.3 + fs.energyLow * 4

/-- `speed = 80 + energyLow * 300` (receiver.js line 235). -/
def ringSpeed (fs : FeatureState) : ℚ := 80 + fs.energyLow * 300

/-- The ring-spawn step of `drawBassTunnel` (receiver.js lines 219–232):
when `Math.random() < spawnRate * 0.016 || isBeat`, a new ring is pushed —
but only if the list is below `MAX_RINGS`; otherwise the spawn is skipped.
`rand`, `randHue` and `randWaveOff` are the three `Math.random()` draws of
this frame. -/
def bassTunnelSpawn (rand randHue randWaveOff : ℚ) (fs : FeatureState)
    (rings : List Ring) : List Ring :=
  if rand < spawnRate fs * 0.016 ∨ fs.isBeat then
    if rings.length < MAX_RINGS then
      rings ++ [{ radius := if fs.isBeat then 8 else 3
                  thickness := if fs.isBeat then 4 + fs.beatPulse * 8
                               else 2 + fs.energyLow * 4
                  alpha := 1
                  hue := randHue * 60
                  waveOff := randWaveOff
                  waveAmp := 0.3 + fs.amplitude * 1.5 }]
    else rings
  else rings

/-- The per-ring mutation of the update loop (receiver.js lines 240–241):
`ring.radius += speed * 0.016; ring.alpha = Math.max(0, 1 - ring.radius / maxR)`. -/
def stepRing (speed maxR : ℚ) (r : Ring) : Ring :=
  let radius := r.radius + speed * 0.016
  { r with radius := radius, alpha := max 0 (1 - radius / maxR) }

/-- The removal test of the update loop (receiver.js line 243), applied to
the already-stepped ring: it survives unless `radius > maxR || alpha < 0.02`. -/
def ringAlive (maxR : ℚ) (r : Ring) : Bool :=
  !(decide (r.radius > maxR) || decide (r.alpha < 0.02))

/-- The update-and-cull loop of `drawBassTunnel` (receiver.js lines
238–245).  The source iterates backwards and `splice`s dead rings out;
since each iteration mutates only the ring at its own index and a removal
at index `i` leaves indices below `i` untouched, the loop is exactly:
step every ring, then drop the dead ones, preserving order. -/
def bassTunnelUpdate (speed maxR : ℚ) (rings : List Ring) : List Ring :=
  (rings.map (stepRing speed maxR)).filter (ringAlive maxR)

/-- One frame of `drawBassTunnel`'s effect on the ring list: spawn
(lines 219–232), then update and cull (lines 238–245). -/
def bassTunnelFrame (rand randHue randWaveOff : ℚ) (fs : FeatureState)
    (width height : ℚ) (rings : List Ring) : List Ring :=
  bassTunnelUpdate (ringSpeed fs) (tunnelMaxR width height)
    (bassTunnelSpawn rand randHue randWaveOff fs rings)

/-- The radius/alpha trajectory of a single ring across a sequence of
frames with per-frame feature states: the ring as it is after each
frame's `stepRing`. -/
def ringTraj (maxR : ℚ) : List FeatureState → Ring → List Ring
  | [], r => [r]
  | fs :: rest, r => r :: ringTraj maxR rest (stepRing (ringSpeed fs) maxR r)

/-! ## Nebula Swarm (variant 0) particle wrap -/

/-- A swarm particle (receiver.js lines 141–149). -/
structure Particle where
  x : ℚ
  y : ℚ
  vx : ℚ
  vy : ℚ
  size : ℚ
  hue : ℚ
  life : ℚ

/-- The one-axis wrap step of `drawNebula` (receiver.js lines 184–187):
`if (p.x < 0) p.x += width; if (p.x > width) p.x -= width;` — two
sequential conditionals, the second testing the value the first produced. -/
def wrapCoord (limit x : ℚ) : ℚ :=
  let x1 := if x < 0 then x + limit else x
  if x1 > limit then x1 - limit else x1

/-- The full wrap step applied to a particle's updated position
(receiver.js lines 183–187). -/
def wrapParticle (width height : ℚ) (p : Particle) : Particle :=
  { p with x := wrapCoord width p.x, y := wrapCoord height p.y }

/-! ## Waveform sample indices -/

/-- JavaScript's `%` on integer-valued numbers: the truncated remainder
(sign follows the dividend). -/
def jsRem (a b : ℤ) : ℤ := Int.tmod a b

/-- The ring ripple sample index (receiver.js line 257):
`Math.floor(((p / pts) + ring.waveOff) * waveform.length) % waveform.length`. -/
def ringWaveIdx (p pts : ℕ) (waveOff : ℚ) (len : ℕ) : ℤ :=
  jsRem ⌊((p : ℚ) / (pts : ℚ) + waveOff) * (len : ℚ)⌋ (len : ℤ)

/-- The ribbon sample index (receiver.js line 295), with `t = x / width`:
`Math.floor((t + r * 0.1 + time * 0.05) * waveform.length) % waveform.length`. -/
def ribbonWaveIdx (t : ℚ) (r : ℕ) (time : ℚ) (len : ℕ) : ℤ :=
  jsRem ⌊(t + (r : ℚ) * 0.1 + time * 0.05) * (len : ℚ)⌋ (len : ℤ)

/-- A value is neither `undefined` nor `null`. -/
def notNullish (v : JSVal) : Prop := v ≠ .undefined ∧ v ≠ .null

/-! ## Helper lemmas -/

theorem jsOr_of_falsy {a : JSVal} (b : JSVal) (h : truthy a = false) :
    jsOr a b = b := by
  simp [jsOr, h]

theorem notNullish_of_truthy {a : JSVal} (h : truthy a = true) : notNullish a := by
  cases a <;> simp_all [truthy, notNullish]

theorem notNullish_jsOr {a b : JSVal} (hb : notNullish b) : notNullish (jsOr a b) := by
  unfold jsOr
  split
  · exact notNullish_of_truthy (by assumption)
  · exact hb

theorem getProp_eq_prop (d : JSVal) (k : String) (h1 : d ≠ .null)
    (h2 : d ≠ .undefined) : getProp d k = some (prop d k) := by
  cases d <;> simp_all [getProp, prop]

/-! ## Claim theorems -/

/-- Claim C9: handling `{type:"ping"}` emits exactly one `{type:"pong"}`
reply, and the feature record, the active-visualizer index and the
staleness timestamp are all unchanged (the returned state is the input
state itself). -/
theorem ping_emits_one_pong (parse : String → Option JSVal) (now : ℚ)
    (s : RState) :
    handleMessage parse now (.obj [("type", .str "ping")]) s = .ok (s, [.pong]) :=
  rfl

/-- Claim C10: a `{type:"features"}` message whose `data` field is falsy
(absent, `null`, or otherwise falsy) leaves every field of the feature
record unchanged, yet still resets the staleness timestamp to the arrival
instant, and emits nothing. -/
theorem features_falsy_data_resets_timestamp (parse : String → Option JSVal)
    (now : ℚ) (s : RState) (d : JSVal) (hd : truthy d = false) :
    handleMessage parse now (.obj [("type", .str "features"), ("data", d)]) s
      = .ok ({ s with lastFeatureTime := now }, [])
    ∧ handleMessage parse now (.obj [("type", .str "features")]) s
      = .ok ({ s with lastFeatureTime := now }, []) := by
  constructor
  · simp [handleMessage, handleParsed, getProp, prop, lookupField, strictEqStr,
      updateFeatures, hd]
  · simp [handleMessage, handleParsed, getProp, prop, lookupField, strictEqStr,
      updateFeatures, truthy]

theorem features_falsy_data_witness :
    handleMessage (fun _ => none) 0
      (.obj [("type", .str "features"), ("data", .null)]) initialRState
      = .ok ({ initialRState with lastFeatureTime := 0 }, []) :=
  (features_falsy_data_resets_timestamp (fun _ => none) 0 initialRState .null rfl).1

/-- Claim C3: any active-visualizer index that is not strictly equal (in
the `===` sense of the `switch`) to one of the numbers 0, 1, 2, 3 — which
covers 4, −1, 99, non-integer numbers and every non-numeric value — makes
`render` dispatch exactly the draw function of variant 0, `drawNebula`. -/
theorem vizIndex_fallback (v : JSVal)
    (h0 : strictEqNum v 0 = false) (h1 : strictEqNum v 1 = false)
    (h2 : strictEqNum v 2 = false) (h3 : strictEqNum v 3 = false) :
    dispatchViz v = dispatchViz (.num 0) ∧ dispatchViz v = .nebula := by
  unfold dispatchViz
  rw [h0, h1, h2, h3]
  exact ⟨rfl, rfl⟩

theorem vizIndex_fallback_witness :
    dispatchViz (.num 99) = dispatchViz (.num 0)
      ∧ dispatchViz (.str "two") = dispatchViz (.num 0)
      ∧ dispatchViz (.num (-1)) = .nebula :=
  ⟨(vizIndex_fallback (.num 99) (by decide) (by decide) (by decide) (by decide)).1,
   (vizIndex_fallback (.str "two") rfl rfl rfl rfl).1,
   (vizIndex_fallback (.num (-1)) (by decide) (by decide) (by decide) (by decide)).2⟩

/-- Claim C4, counterexample: a `null` payload is not dropped silently —
`handleMessage` reads `data.type` off `null` and a `TypeError` escapes
(the embedded handler returns `Except.error`). -/
theorem handleMessage_null_throws :
    handleMessage (fun _ => none) 0 .null initialRState = .error () :=
  rfl

/-- Claim C4, amended: a string payload that fails structural parsing, and
any non-string payload other than `null`/`undefined` whose `type` field is
none of `"features"`, `"vizIndex"`, `"ping"`, is dropped silently — no
exception, no reply, state unchanged.  (A `null` or `undefined` payload
instead throws a `TypeError`, per the counterexample.) -/
theorem malformed_nonnull_dropped (parse : String → Option JSVal) (now : ℚ)
    (s : RState) :
    (∀ text, parse text = none →
      handleMessage parse now (.str text) s = .ok (s, []))
    ∧ (∀ d : JSVal, d ≠ .null → d ≠ .undefined → (∀ t, d ≠ .str t) →
        strictEqStr (prop d "type") "features" = false →
        strictEqStr (prop d "type") "vizIndex" = false →
        strictEqStr (prop d "type") "ping" = false →
        handleMessage parse now d s = .ok (s, [])) := by
  constructor
  · intro text h
    simp [handleMessage, h]
  · intro d hnull hundef hstr h1 h2 h3
    cases d with
    | undefined => exact absurd rfl hundef
    | null => exact absurd rfl hnull
    | str t => exact absurd rfl (hstr t)
    | bool b => rfl
    | num q => rfl
    | arr l => rfl
    | obj fields =>
      simp only [prop, getProp, Option.getD_some] at h1 h2 h3
      simp [handleMessage, handleParsed, getProp, h1, h2, h3]

theorem malformed_nonnull_dropped_witness :
    handleMessage (fun _ => none) 0 (.str "not json") initialRState
      = .ok (initialRState, [])
    ∧ handleMessage (fun _ => none) 0 (.num 5) initialRState
      = .ok (initialRState, [])
    ∧ handleMessage (fun _ => none) 0 (.obj [("type", .str "selfdestruct")])
        initialRState = .ok (initialRState, []) :=
  ⟨(malformed_nonnull_dropped (fun _ => none) 0 initialRState).1 "not json" rfl,
   (malformed_nonnull_dropped (fun _ => none) 0 initialRState).2 (.num 5)
     (by simp) (by simp) (fun t => by simp) rfl rfl rfl,
   (malformed_nonnull_dropped (fun _ => none) 0 initialRState).2
     (.obj [("type", .str "selfdestruct")])
     (by simp) (by simp) (fun t => by simp) rfl rfl rfl⟩

/-- Claim C1, counterexample: a truthy but invalid field value is stored
as-is, not replaced by the default or the last value — sending
`{energyHigh: "loud"}` leaves the feature record holding the string
`"loud"`, which is neither the default `0` nor the previous value `0`. -/
theorem updateFeatures_keeps_invalid_string :
    (updateFeatures (.obj [("energyHigh", .str "loud")]) initialFeatures).energyHigh
        = .str "loud"
    ∧ JSVal.str "loud" ≠ .num 0
    ∧ initialFeatures.energyHigh = .num 0 :=
  ⟨rfl, by simp, rfl⟩

/-- Claim C1, amended: a falsy `applyUpdate` argument leaves the record
untouched; for a truthy argument, every recognized scalar field that is
absent or falsy in the update is set to its documented default (0, false,
tempo 120, brightness 0.5) — truthy values are stored as given, even when
ill-typed — and after the call no scalar field is `undefined` or `null`;
the sequence fields are replaced wholesale when present (truthy) and left
unchanged otherwise. -/
theorem updateFeatures_defaults (f : JSVal) (cur : RawFeatures) :
    (truthy f = false → updateFeatures f cur = cur)
    ∧ (truthy f = true →
        (truthy (prop f "energyLow") = false →
          (updateFeatures f cur).energyLow = .num 0)
        ∧ (truthy (prop f "energyMid") = false →
            (updateFeatures f cur).energyMid = .num 0)
        ∧ (truthy (prop f "energyHigh") = false →
            (updateFeatures f cur).energyHigh = .num 0)
        ∧ (truthy (prop f "beatPulse") = false →
            (updateFeatures f cur).beatPulse = .num 0)
        ∧ (truthy (prop f "isBeat") = false →
            (updateFeatures f cur).isBeat = .bool false)
        ∧ (truthy (prop f "beatCount") = false →
            (updateFeatures f cur).beatCount = .num 0)
        ∧ (truthy (prop f "beatPhase") = false →
            (updateFeatures f cur).beatPhase = .num 0)
        ∧ (truthy (prop f "tempoBpm") = false →
            (updateFeatures f cur).tempoBpm = .num 120)
        ∧ (truthy (prop f "brightness") = false →
            (updateFeatures f cur).brightness = .num 0.5)
        ∧ (truthy (prop f "roughness") = false →
            (updateFeatures f cur).roughness = .num 0)
        ∧ (truthy (prop f "sectionEnergy") = false →
            (updateFeatures f cur).sectionEnergy = .num 0)
        ∧ (truthy (prop f "amplitude") = false →
            (updateFeatures f cur).amplitude = .num 0)
        ∧ (truthy (prop f "waveform") = false →
            (updateFeatures f cur).waveform = cur.waveform)
        ∧ (∀ l, prop f "waveform" = .arr l →
            (updateFeatures f cur).waveform = l)
        ∧ (truthy (prop f "fftMagnitudes") = false →
            (updateFeatures f cur).fftMagnitudes = cur.fftMagnitudes)
        ∧ (∀ l, prop f "fftMagnitudes" = .arr l →
            (updateFeatures f cur).fftMagnitudes = l)
        ∧ notNullish (updateFeatures f cur).energyLow
        ∧ notNullish (updateFeatures f cur).energyMid
        ∧ notNullish (updateFeatures f cur).energyHigh
        ∧ notNullish (updateFeatures f cur).beatPulse
        ∧ notNullish (updateFeatures f cur).isBeat
        ∧ notNullish (updateFeatures f cur).beatCount
        ∧ notNullish (updateFeatures f cur).beatPhase
        ∧ notNullish (updateFeatures f cur).tempoBpm
        ∧ notNullish (updateFeatures f cur).brightness
        ∧ notNullish (updateFeatures f cur).roughness
        ∧ notNullish (updateFeatures f cur).sectionEnergy
        ∧ notNullish (updateFeatures f cur).amplitude) := by
  constructor
  · intro h
    simp [updateFeatures, h]
  · intro hf
    have hu : updateFeatures f cur =
        { energyLow := jsOr (prop f "energyLow") (.num 0)
          energyMid := jsOr (prop f "energyMid") (.num 0)
          energyHigh := jsOr (prop f "energyHigh") (.num 0)
          beatPulse := jsOr (prop f "beatPulse") (.num 0)
          isBeat := jsOr (prop f "isBeat") (.bool false)
          beatCount := jsOr (prop f "beatCount") (.num 0)
          beatPhase := jsOr (prop f "beatPhase") (.num 0)
          tempoBpm := jsOr (prop f "tempoBpm") (.num 120)
          brightness := jsOr (prop f "brightness") (.num 0.5)
          roughness := jsOr (prop f "roughness") (.num 0)
          sectionEnergy := jsOr (prop f "sectionEnergy") (.num 0)
          amplitude := jsOr (prop f "amplitude") (.num 0)
          waveform :=
            if truthy (prop f "waveform") then toFloat32Array (prop f "waveform")
            else cur.waveform
          fftMagnitudes :=
            if truthy (prop f "fftMagnitudes") then
              toFloat32Array (prop f "fftMagnitudes")
            else cur.fftMagnitudes } := by
      simp [updateFeatures, hf]
    rw [hu]
    refine ⟨fun h => jsOr_of_falsy _ h, fun h => jsOr_of_falsy _ h,
      fun h => jsOr_of_falsy _ h, fun h => jsOr_of_falsy _ h,
      fun h => jsOr_of_falsy _ h, fun h => jsOr_of_falsy _ h,
      fun h => jsOr_of_falsy _ h, fun h => jsOr_of_falsy _ h,
      fun h => jsOr_of_falsy _ h, fun h => jsOr_of_falsy _ h,
      fun h => jsOr_of_falsy _ h, fun h => jsOr_of_falsy _ h,
      fun h => by simp [h], fun l hl => by simp [hl, truthy, toFloat32Array],
      fun h => by simp [h], fun l hl => by simp [hl, truthy, toFloat32Array],
      notNullish_jsOr (by simp [notNullish]), notNullish_jsOr (by simp [notNullish]),
      notNullish_jsOr (by simp [notNullish]), notNullish_jsOr (by simp [notNullish]),
      notNullish_jsOr (by simp [notNullish]), notNullish_jsOr (by simp [notNullish]),
      notNullish_jsOr (by simp [notNullish]), notNullish_jsOr (by simp [notNullish]),
      notNullish_jsOr (by simp [notNullish]), notNullish_jsOr (by simp [notNullish]),
      notNullish_jsOr (by simp [notNullish]), notNullish_jsOr (by simp [notNullish])⟩

theorem updateFeatures_defaults_witness :
    (updateFeatures (.obj [("energyLow", .num 0.8)]) initialFeatures).brightness
        = .num 0.5
    ∧ (updateFeatures (.obj [("energyLow", .num 0.8)]) initialFeatures).tempoBpm
        = .num 120
    ∧ (updateFeatures (.obj [("energyLow", .num 0.8)]) initialFeatures).waveform
        = initialFeatures.waveform
    ∧ notNullish
        (updateFeatures (.obj [("energyLow", .num 0.8)]) initialFeatures).energyLow :=
  ⟨(((updateFeatures_defaults (.obj [("energyLow", .num 0.8)])
        initialFeatures).2 rfl).2.2.2.2.2.2.2.2.1 rfl),
   (((updateFeatures_defaults (.obj [("energyLow", .num 0.8)])
        initialFeatures).2 rfl).2.2.2.2.2.2.2.1 rfl),
   (((updateFeatures_defaults (.obj [("energyLow", .num 0.8)])
        initialFeatures).2 rfl).2.2.2.2.2.2.2.2.2.2.2.2.1 rfl),
   ((updateFeatures_defaults (.obj [("energyLow", .num 0.8)])
        initialFeatures).2 rfl).2.2.2.2.2.2.2.2.2.2.2.2.2.2.2.2.1⟩

/-- Claim C2, counterexample: the decay step does not strictly decrease a
field that is already zero — in the stale startup state (now = 300ms,
last update at 0ms, so 300 − 0 > 200) beatPulse is 0 and stays exactly 0,
so repeated decay calls do not strictly decrease it. -/
theorem renderDecay_not_strict_at_zero :
    (300 : ℚ) - 0 > 200
    ∧ (renderDecay 300 0 zeroFeatureState).beatPulse = zeroFeatureState.beatPulse
    ∧ ¬ (renderDecay 300 0 zeroFeatureState).beatPulse
          < zeroFeatureState.beatPulse := by
  refine ⟨by norm_num, ?_, ?_⟩ <;> norm_num [renderDecay, zeroFeatureState]

/-- Claim C2, amended: when the state is stale (now − lastFeatureTime >
200ms), the decay step multiplies beatPulse by 0.9 and amplitude and the
three energy bands by 0.95 (fixed factors, each within 0.9–0.95) and
forces isBeat to false; for nonnegative fields the decayed values stay
nonnegative (never below zero) and never increase, and every *positive*
field strictly decreases — a field already at zero stays exactly zero. -/
theorem renderDecay_attenuates (now last : ℚ) (fs : FeatureState)
    (hstale : now - last > 200)
    (hb : 0 ≤ fs.beatPulse) (ha : 0 ≤ fs.amplitude) (hl : 0 ≤ fs.energyLow)
    (hm : 0 ≤ fs.energyMid) (hh : 0 ≤ fs.energyHigh) :
    (renderDecay now last fs).beatPulse = fs.beatPulse * 0.9
    ∧ (renderDecay now last fs).amplitude = fs.amplitude * 0.95
    ∧ (renderDecay now last fs).energyLow = fs.energyLow * 0.95
    ∧ (renderDecay now last fs).energyMid = fs.energyMid * 0.95
    ∧ (renderDecay now last fs).energyHigh = fs.energyHigh * 0.95
    ∧ (renderDecay now last fs).isBeat = false
    ∧ 0 ≤ (renderDecay now last fs).beatPulse
    ∧ 0 ≤ (renderDecay now last fs).amplitude
    ∧ 0 ≤ (renderDecay now last fs).energyLow
    ∧ 0 ≤ (renderDecay now last fs).energyMid
    ∧ 0 ≤ (renderDecay now last fs).energyHigh
    ∧ (renderDecay now last fs).beatPulse ≤ fs.beatPulse
    ∧ (renderDecay now last fs).amplitude ≤ fs.amplitude
    ∧ (renderDecay now last fs).energyLow ≤ fs.energyLow
    ∧ (renderDecay now last fs).energyMid ≤ fs.energyMid
    ∧ (renderDecay now last fs).energyHigh ≤ fs.energyHigh
    ∧ (0 < fs.beatPulse → (renderDecay now last fs).beatPulse < fs.beatPulse)
    ∧ (0 < fs.amplitude → (renderDecay now last fs).amplitude < fs.amplitude)
    ∧ (0 < fs.energyLow → (renderDecay now last fs).energyLow < fs.energyLow)
    ∧ (0 < fs.energyMid → (renderDecay now last fs).energyMid < fs.energyMid)
    ∧ (0 < fs.energyHigh → (renderDecay now last fs).energyHigh < fs.energyHigh)
    := by
  have hd : renderDecay now last fs =
      { fs with
          beatPulse := fs.beatPulse * 0.9
          amplitude := fs.amplitude * 0.95
          energyLow := fs.energyLow * 0.95
          energyMid := fs.energyMid * 0.95
          energyHigh := fs.energyHigh * 0.95
          isBeat := false } := by
    simp [renderDecay, hstale]
  rw [hd]
  refine ⟨rfl, rfl, rfl, rfl, rfl, rfl, ?_, ?_, ?_, ?_, ?_, ?_, ?_, ?_, ?_, ?_,
    ?_, ?_, ?_, ?_, ?_⟩ <;>
    first
      | exact mul_nonneg (by assumption) (by norm_num)
      | exact mul_le_of_le_one_right (by assumption) (by norm_num)
      | exact fun hpos => mul_lt_of_lt_one_right hpos (by norm_num)

theorem renderDecay_attenuates_witness :
    (renderDecay 300 0
        { zeroFeatureState with
            beatPulse := 1, amplitude := 1, energyLow := 1,
            energyMid := 1, energyHigh := 1 }).beatPulse
      = (1 : ℚ) * 0.9
    ∧ (0 : ℚ) < 1
    ∧ (renderDecay 300 0
        { zeroFeatureState with
            beatPulse := 1, amplitude := 1, energyLow := 1,
            energyMid := 1, energyHigh := 1 }).energyLow < 1 :=
  ⟨(renderDecay_attenuates 300 0 _ (by norm_num) (by norm_num) (by norm_num)
      (by norm_num) (by norm_num) (by norm_num)).1,
   by norm_num,
   (renderDecay_attenuates 300 0 _ (by norm_num) (by norm_num) (by norm_num)
      (by norm_num) (by norm_num)
      (by norm_num)).2.2.2.2.2.2.2.2.2.2.2.2.2.2.2.2.2.2.1 (by norm_num)⟩

theorem bassTunnelSpawn_length_le (rand randHue randWaveOff : ℚ)
    (fs : FeatureState) (rings : List Ring) (h : rings.length ≤ MAX_RINGS) :
    (bassTunnelSpawn rand randHue randWaveOff fs rings).length ≤ MAX_RINGS := by
  unfold bassTunnelSpawn
  split
  · split
    · next hlt => simp only [List.length_append, List.length_singleton]; omega
    · exact h
  · exact h

theorem bassTunnelUpdate_length_le (speed maxR : ℚ) (rings : List Ring) :
    (bassTunnelUpdate speed maxR rings).length ≤ rings.length := by
  unfold bassTunnelUpdate
  refine le_trans (List.length_filter_le _ _) ?_
  simp

theorem bassTunnelFrame_length_le (rand randHue randWaveOff : ℚ)
    (fs : FeatureState) (width height : ℚ) (rings : List Ring)
    (h : rings.length ≤ MAX_RINGS) :
    (bassTunnelFrame rand randHue randWaveOff fs width height rings).length
      ≤ MAX_RINGS :=
  le_trans (bassTunnelUpdate_length_le _ _ _)
    (bassTunnelSpawn_length_le _ _ _ _ _ h)

/-- Claim C5: starting from the empty ring list the receiver initializes,
after any sequence of `drawBassTunnel` frames — whatever the random draws,
feature states and surface size of each frame — the number of live rings
never exceeds `MAX_RINGS` (30): a spawn attempt at capacity is skipped. -/
theorem tunnel_ring_cap (frames : List (ℚ × ℚ × ℚ × FeatureState))
    (width height : ℚ) :
    (frames.foldl
      (fun rings fr =>
        bassTunnelFrame fr.1 fr.2.1 fr.2.2.1 fr.2.2.2 width height rings)
      ([] : List Ring)).length ≤ MAX_RINGS := by
  suffices h : ∀ rings : List Ring, rings.length ≤ MAX_RINGS →
      (frames.foldl
        (fun rings fr =>
          bassTunnelFrame fr.1 fr.2.1 fr.2.2.1 fr.2.2.2 width height rings)
        rings).length ≤ MAX_RINGS by
    exact h [] (by simp [MAX_RINGS])
  induction frames with
  | nil => intro rings h; simpa using h
  | cons fr rest ih =>
    intro rings h
    simp only [List.foldl_cons]
    exact ih _ (bassTunnelFrame_length_le _ _ _ _ _ _ _ h)

theorem ringTraj_head (maxR : ℚ) (l : List FeatureState) (r : Ring) :
    (ringTraj maxR l r).head? = some r := by
  cases l <;> rfl

theorem ringTraj_chain (maxR : ℚ) (l : List FeatureState) (r : Ring)
    (h : ∀ fs ∈ l, 0 ≤ fs.energyLow) :
    List.Chain' (fun a b => a.radius ≤ b.radius) (ringTraj maxR l r) := by
  induction l generalizing r with
  | nil => simp [ringTraj]
  | cons fs rest ih =>
    have hfs : 0 ≤ fs.energyLow := h fs (List.mem_cons_self _ _)
    have hrest : ∀ g ∈ rest, 0 ≤ g.energyLow :=
      fun g hg => h g (List.mem_cons_of_mem _ hg)
    have hsp : 0 ≤ ringSpeed fs * 0.016 := by
      have : 0 ≤ ringSpeed fs := by unfold ringSpeed; linarith
      exact mul_nonneg this (by norm_num)
    have hstep : r.radius ≤ (stepRing (ringSpeed fs) maxR r).radius := by
      show r.radius ≤ r.radius + ringSpeed fs * 0.016
      linarith
    show List.Chain' (fun a b => a.radius ≤ b.radius)
      (r :: ringTraj maxR rest (stepRing (ringSpeed fs) maxR r))
    rw [List.chain'_cons']
    refine ⟨?_, ih _ hrest⟩
    intro b hb
    rw [ringTraj_head] at hb
    simp only [Option.mem_some_iff] at hb
    subst hb
    exact hstep

/-- Claim C6: a tunnel ring's radius never decreases between consecutive
frames of its lifetime (its trajectory under the per-frame step is
monotone, for nonnegative low-band energy), every ring still in the list
after a frame's update-and-cull pass satisfies the survival condition
(so a ring is removed on the first frame its radius exceeds `maxR` or its
alpha falls below 0.02), and a stepped ring that does satisfy the
condition stays in the list. -/
theorem ring_lifecycle (width height : ℚ) (featSeq : List FeatureState)
    (hseq : ∀ fs ∈ featSeq, 0 ≤ fs.energyLow) (r0 : Ring)
    (fs : FeatureState) (rings : List Ring) :
    List.Chain' (fun a b => a.radius ≤ b.radius)
      (ringTraj (tunnelMaxR width height) featSeq r0)
    ∧ (∀ r ∈ bassTunnelUpdate (ringSpeed fs) (tunnelMaxR width height) rings,
        ringAlive (tunnelMaxR width height) r = true)
    ∧ (∀ r ∈ rings,
        ringAlive (tunnelMaxR width height)
            (stepRing (ringSpeed fs) (tunnelMaxR width height) r) = true →
          stepRing (ringSpeed fs) (tunnelMaxR width height) r
            ∈ bassTunnelUpdate (ringSpeed fs) (tunnelMaxR width height) rings) := by
  refine ⟨ringTraj_chain _ _ _ hseq, ?_, ?_⟩
  · intro r hr
    unfold bassTunnelUpdate at hr
    exact (List.mem_filter.mp hr).2
  · intro r hr halive
    unfold bassTunnelUpdate
    exact List.mem_filter.mpr ⟨List.mem_map_of_mem _ hr, halive⟩

theorem ring_lifecycle_witness :
    List.Chain' (fun a b => a.radius ≤ b.radius)
      (ringTraj (tunnelMaxR 1920 1080) [zeroFeatureState]
        { radius := 3, thickness := 2, alpha := 1, hue := 30,
          waveOff := 0.5, waveAmp := 0.3 }) :=
  (ring_lifecycle 1920 1080 [zeroFeatureState]
    (by
      intro g hg
      simp only [List.mem_singleton] at hg
      subst hg
      norm_num [zeroFeatureState])
    { radius := 3, thickness := 2, alpha := 1, hue := 30,
      waveOff := 0.5, waveAmp := 0.3 }
    zeroFeatureState []).1

theorem wrapCoord_neg (limit x : ℚ) (hx : x < 0) :
    wrapCoord limit x = limit + x := by
  simp only [wrapCoord]
  rw [if_pos hx, if_neg (show ¬ x + limit > limit by linarith)]
  ring

theorem wrapCoord_over (limit x : ℚ) (hl : 0 < limit) (hx : x > limit) :
    wrapCoord limit x = x - limit := by
  simp only [wrapCoord]
  rw [if_neg (show ¬ x < 0 by linarith), if_pos hx]

theorem wrapCoord_id (limit x : ℚ) (h0 : 0 ≤ x) (h1 : x ≤ limit) :
    wrapCoord limit x = x := by
  simp only [wrapCoord]
  rw [if_neg (show ¬ x < 0 by linarith), if_neg (show ¬ x > limit by linarith)]

/-- Claim C7: for every surface of size at least 1×1 and every particle,
the wrap step of `drawNebula` is toroidal on each axis: an updated
position below 0 reappears at the far edge offset inward by the overflow
(`width + x`), a position beyond the edge reappears from 0 offset by the
overflow (`x − width`), and an in-range position is untouched; likewise
vertically. -/
theorem particle_wrap (width height : ℚ) (hw : 1 ≤ width) (hh : 1 ≤ height)
    (p : Particle) :
    (p.x < 0 → (wrapParticle width height p).x = width + p.x)
    ∧ (p.x > width → (wrapParticle width height p).x = p.x - width)
    ∧ (0 ≤ p.x → p.x ≤ width → (wrapParticle width height p).x = p.x)
    ∧ (p.y < 0 → (wrapParticle width height p).y = height + p.y)
    ∧ (p.y > height → (wrapParticle width height p).y = p.y - height)
    ∧ (0 ≤ p.y → p.y ≤ height → (wrapParticle width height p).y = p.y) :=
  ⟨fun hx => wrapCoord_neg width p.x hx,
   fun hx => wrapCoord_over width p.x (by linarith) hx,
   fun h0 h1 => wrapCoord_id width p.x h0 h1,
   fun hy => wrapCoord_neg height p.y hy,
   fun hy => wrapCoord_over height p.y (by linarith) hy,
   fun h0 h1 => wrapCoord_id height p.y h0 h1⟩

theorem particle_wrap_witness :
    (wrapParticle 100 50
        { x := -5, y := 53, vx := 0, vy := 0, size := 2, hue := 10, life := 1 }).x
      = 100 + (-5)
    ∧ (wrapParticle 100 50
        { x := -5, y := 53, vx := 0, vy := 0, size := 2, hue := 10, life := 1 }).y
      = 53 - 50 :=
  ⟨(particle_wrap 100 50 (by norm_num) (by norm_num)
      { x := -5, y := 53, vx := 0, vy := 0, size := 2, hue := 10, life := 1 }).1
      (by norm_num),
   (particle_wrap 100 50 (by norm_num) (by norm_num)
      { x := -5, y := 53, vx := 0, vy := 0, size := 2, hue := 10, life := 1 }).2.2.2.2.1
      (by norm_num)⟩

theorem jsRem_nonneg_lt (a : ℤ) (n : ℕ) (ha : 0 ≤ a) (hn : 0 < n) :
    0 ≤ jsRem a n ∧ jsRem a n < n := by
  unfold jsRem
  exact ⟨Int.tmod_nonneg _ ha, Int.tmod_lt_of_pos a (by exact_mod_cast hn)⟩

/-- Claim C8: for a positive-length waveform buffer, both sample-index
formulas — the ring-tunnel's per-angle index (for any angle step `p`,
point count `pts`, nonnegative wave offset) and the flow-ribbons' per-x
index (for nonnegative `t`, ribbon number and clock) — land in
`[0, length)` straight after the modulo, so every access is in bounds and
the `Math.abs` guard on the ring index is the identity (dead code). -/
theorem waveIdx_in_bounds (len : ℕ) (hlen : 0 < len) (p pts : ℕ)
    (waveOff : ℚ) (hoff : 0 ≤ waveOff) (t : ℚ) (ht : 0 ≤ t) (r : ℕ)
    (time : ℚ) (htime : 0 ≤ time) :
    (0 ≤ ringWaveIdx p pts waveOff len
      ∧ ringWaveIdx p pts waveOff len < len
      ∧ ((ringWaveIdx p pts waveOff len).natAbs : ℤ) = ringWaveIdx p pts waveOff len
      ∧ (ringWaveIdx p pts waveOff len).toNat < len)
    ∧ (0 ≤ ribbonWaveIdx t r time len
      ∧ ribbonWaveIdx t r time len < len
      ∧ (ribbonWaveIdx t r time len).toNat < len) := by
  unfold ringWaveIdx ribbonWaveIdx
  have hring : 0 ≤ ⌊((p : ℚ) / (pts : ℚ) + waveOff) * (len : ℚ)⌋ := by
    apply Int.floor_nonneg.mpr
    have h1 : 0 ≤ (p : ℚ) / (pts : ℚ) :=
      div_nonneg (by positivity) (by positivity)
    have h2 : (0 : ℚ) ≤ (len : ℚ) := by positivity
    nlinarith
  have hrib : 0 ≤ ⌊(t + (r : ℚ) * 0.1 + time * 0.05) * (len : ℚ)⌋ := by
    apply Int.floor_nonneg.mpr
    have h1 : (0 : ℚ) ≤ (r : ℚ) := by positivity
    have h2 : (0 : ℚ) ≤ (len : ℚ) := by positivity
    nlinarith
  obtain ⟨hr0, hr1⟩ := jsRem_nonneg_lt _ len hring hlen
  obtain ⟨hb0, hb1⟩ := jsRem_nonneg_lt _ len hrib hlen
  refine ⟨⟨hr0, hr1, Int.natAbs_of_nonneg hr0, ?_⟩, hb0, hb1, ?_⟩
  · omega
  · omega

theorem waveIdx_in_bounds_witness :
    (0 ≤ ringWaveIdx 5 72 0.5 128 ∧ ringWaveIdx 5 72 0.5 128 < 128
      ∧ ((ringWaveIdx 5 72 0.5 128).natAbs : ℤ) = ringWaveIdx 5 72 0.5 128
      ∧ (ringWaveIdx 5 72 0.5 128).toNat < 128)
    ∧ (0 ≤ ribbonWaveIdx 0.25 3 2 128 ∧ ribbonWaveIdx 0.25 3 2 128 < 128
      ∧ (ribbonWaveIdx 0.25 3 2 128).toNat < 128) :=
  waveIdx_in_bounds 128 (by norm_num) 5 72 0.5 (by norm_num) 0.25 (by norm_num)
    3 2 (by norm_num)

end GlowJack
